import Mathlib

/-!
Shallow embedding of the voice-assistant pipeline in `src/AIspeech.py`.

The embedding follows the source file:
  * `Message`, the global `messages` list (`ConversationHistory`);
  * `send_to_chatglm` (`ListenWorker.send_to_chatglm`, lines 476-486);
  * `runIteration` / `runLoop` (the body of `ListenWorker.run`, lines 441-474:
    one `recognizer.listen`/`recognize_google` attempt per iteration, the
    `while self.parent.is_listening` loop around it);
  * `start_recording` / `stop_recording` / `toggle_listening`
    (`AudioRecorder`, lines 60-90, and `SpeechRecognitionApp.toggle_listening`,
    lines 382-404);
  * `fft_data` (the FFT stage of `AudioRecorder.update_plots`, line 103).

Because `ListenWorker.run` calls `asyncio.run(self.send_to_chatglm(text))`,
the chat dispatch runs to completion on the listen-loop thread before the
next loop iteration; the loop is therefore faithfully modelled as a
sequential step function.  Each step also emits a list of `Event`s recording
the externally visible actions (UI calls, log calls, history appends, the
chat-backend invocation) in the order the source performs them.  Timestamps
that the source interpolates into UI strings are elided.
-/

/-- Role tag of one entry of the global `messages` list. -/
inductive Role where
  | user
  | assistant
  deriving Repr, DecidableEq

/-- One entry of `messages`: `{"role": ..., "content": ...}`. -/
structure Message where
  role : Role
  content : String
  deriving Repr, DecidableEq

/-- Outcome of one `recognizer.listen`/`recognize_google` attempt, i.e. which
branch of the `try`/`except` in `ListenWorker.run` is taken. -/
inductive RecognitionResult where
  | success (text : String)
  | timeout
  | unintelligible
  | requestError (detail : String)
  | otherError (detail : String)
  deriving Repr, DecidableEq

/-- Externally visible actions of the listen loop, in source order. -/
inductive Event where
  | detectStart
  | transcriptAppend (text : String)
  | statusSet (text : String)
  | logWarning (text : String)
  | logError (text : String)
  | historyAppend (m : Message)
  | chatCall (args : List Message)
  | chatDone (reply : String)
  | responseAppend (text : String)
  deriving Repr, DecidableEq

/-- State touched by `ListenWorker.run`: the `is_listening` flag, the global
`messages` list, the status label text and the two text areas (modelled as the
lists of appended lines). -/
structure WorkerState where
  isListening : Bool
  history : List Message
  status : String
  transcript : List String
  responses : List String
  deriving Repr, DecidableEq

/-- The fixed persona instruction `words` of `send_to_chatglm` (line 478). -/
def personaWords : String := "你是一个专业的助手，请你简练的回答问题，不得超过200字。"

/-- `ListenWorker.send_to_chatglm` (lines 476-486).  The chat backend is an
oracle `b` from the message list passed to `client.chat.completions.create`
to the reply text.  As in the source, `user_input` is not used: the call is
made with the global `messages` list, the assistant message stored in history
is `words + reply`, and the UI response area receives the raw `reply`. -/
def send_to_chatglm (b : List Message → String) (s : WorkerState)
    (user_input : String) : WorkerState × List Event :=
  let _ := user_input
  let reply := b s.history
  ({ s with
      history := s.history ++ [⟨Role.assistant, personaWords ++ reply⟩],
      responses := s.responses ++ [reply] },
   [Event.chatCall s.history, Event.chatDone reply,
    Event.historyAppend ⟨Role.assistant, personaWords ++ reply⟩,
    Event.responseAppend reply])

/-- One iteration of the `while` loop of `ListenWorker.run` (lines 444-474),
given the outcome of the recognition attempt. -/
def runIteration (b : List Message → String) (s : WorkerState)
    (o : RecognitionResult) : WorkerState × List Event :=
  match o with
  | .success text =>
    let s1 : WorkerState :=
      { s with
          transcript := s.transcript ++ ["Recognized: " ++ text],
          status := "Recognized.",
          history := s.history ++ [⟨Role.user, text⟩] }
    let r := send_to_chatglm b s1 text
    (r.1,
     Event.detectStart :: Event.transcriptAppend ("Recognized: " ++ text) ::
       Event.statusSet "Recognized." ::
       Event.historyAppend ⟨Role.user, text⟩ :: r.2)
  | .timeout =>
    ({ s with status := "Listening timed out, please try again." },
     [Event.detectStart,
      Event.statusSet "Listening timed out, please try again."])
  | .unintelligible =>
    (s, [Event.detectStart, Event.logWarning "Speech not understood."])
  | .requestError d =>
    ({ s with
        transcript := s.transcript ++ ["API request failed: " ++ d],
        status := "API request failed." },
     [Event.detectStart, Event.transcriptAppend ("API request failed: " ++ d),
      Event.statusSet "API request failed.",
      Event.logError ("Speech recognition API request failed: " ++ d)])
  | .otherError d =>
    ({ s with
        transcript := s.transcript ++ ["An error occurred: " ++ d],
        status := "An error occurred." },
     [Event.detectStart, Event.transcriptAppend ("An error occurred: " ++ d),
      Event.statusSet "An error occurred.",
      Event.logError ("Error during listening: " ++ d)])

/-- The `while self.parent.is_listening` loop of `ListenWorker.run`, run over
a finite script of recognition outcomes; returns the final state and the
concatenated event trace. -/
def runLoop (b : List Message → String) :
    WorkerState → List RecognitionResult → WorkerState × List Event
  | s, [] => (s, [])
  | s, o :: os =>
    if s.isListening then
      let step := runIteration b s o
      let rest := runLoop b step.1 os
      (rest.1, step.2 ++ rest.2)
    else (s, [])

/-- Worker state right after "Start Listening": listening flag set, empty
conversation history. -/
def initWorker : WorkerState := ⟨true, [], "Listening...", [], []⟩

/-- Number of `detectStart` events in a trace: how many detector iterations
were attempted. -/
def countDetect : List Event → Nat
  | [] => 0
  | Event.detectStart :: r => countDetect r + 1
  | _ :: r => countDetect r

/-- The messages recorded as appended to the history by a trace. -/
def appendsIn : List Event → List Message
  | [] => []
  | Event.historyAppend m :: r => m :: appendsIn r
  | _ :: r => appendsIn r

/-- Scans a trace maintaining the conversation history and demands that every
chat-backend invocation is passed exactly the history accumulated so far. -/
def chatCallsConsistent : List Message → List Event → Prop
  | _, [] => True
  | h, Event.historyAppend m :: r => chatCallsConsistent (h ++ [m]) r
  | h, Event.chatCall args :: r => args = h ∧ chatCallsConsistent h r
  | h, _ :: r => chatCallsConsistent h r

/-- Spec-side reading of "reported as status": some `status_label.setText`
call occurs in the trace. -/
def reportedToStatusSurface (evs : List Event) : Bool :=
  evs.any fun e =>
    match e with
    | Event.statusSet _ => true
    | _ => false

/-- Spec-side reading of "the loop must not block waiting for the backend
reply": scanning the trace with a count of in-flight chat calls, some
detection cycle starts while a call is still pending. -/
def detectWhilePending : List Event → Nat → Bool
  | [], _ => false
  | Event.detectStart :: r, p => if 0 < p then true else detectWhilePending r p
  | Event.chatCall _ :: r, p => detectWhilePending r (p + 1)
  | Event.chatDone _ :: r, p => detectWhilePending r (p - 1)
  | _ :: r, p => detectWhilePending r p

/-- The user/assistant message pairs a script of successful recognitions
appends, starting from history `h`: for each text, the user message, then the
assistant message built from the backend reply to the history as passed
(everything so far plus the new user message). -/
def successTurns (b : List Message → String) :
    List Message → List String → List Message
  | _, [] => []
  | h, t :: ts =>
    let u : Message := ⟨Role.user, t⟩
    let a : Message := ⟨Role.assistant, personaWords ++ b (h ++ [u])⟩
    u :: a :: successTurns b (h ++ [u, a]) ts

theorem runIteration_isListening (b : List Message → String) (s : WorkerState)
    (o : RecognitionResult) : (runIteration b s o).1.isListening = s.isListening := by
  cases o <;> rfl

theorem runIteration_history_extends (b : List Message → String)
    (s : WorkerState) (o : RecognitionResult) :
    ∃ ext, (runIteration b s o).1.history = s.history ++ ext := by
  cases o with
  | success text =>
    refine ⟨[⟨Role.user, text⟩,
      ⟨Role.assistant, personaWords ++ b (s.history ++ [⟨Role.user, text⟩])⟩], ?_⟩
    simp [runIteration, send_to_chatglm]
  | timeout => exact ⟨[], by simp [runIteration]⟩
  | unintelligible => exact ⟨[], by simp [runIteration]⟩
  | requestError d => exact ⟨[], by simp [runIteration]⟩
  | otherError d => exact ⟨[], by simp [runIteration]⟩

theorem runLoop_not_listening (b : List Message → String) (s : WorkerState)
    (script : List RecognitionResult) (h : s.isListening = false) :
    runLoop b s script = (s, []) := by
  cases script with
  | nil => rfl
  | cons o os => simp [runLoop, h]

theorem runLoop_history_extends (b : List Message → String) (s : WorkerState)
    (script : List RecognitionResult) :
    ∃ ext, (runLoop b s script).1.history = s.history ++ ext := by
  induction script generalizing s with
  | nil => exact ⟨[], by simp [runLoop]⟩
  | cons o os ih =>
    by_cases hl : s.isListening
    · obtain ⟨e1, he1⟩ := runIteration_history_extends b s o
      obtain ⟨e2, he2⟩ := ih (runIteration b s o).1
      refine ⟨e1 ++ e2, ?_⟩
      simp [runLoop, hl, he2, he1]
    · exact ⟨[], by simp [runLoop_not_listening b s _ (by simpa using hl)]⟩

theorem runLoop_append (b : List Message → String) (s : WorkerState)
    (xs ys : List RecognitionResult) :
    runLoop b s (xs ++ ys) =
      ((runLoop b (runLoop b s xs).1 ys).1,
        (runLoop b s xs).2 ++ (runLoop b (runLoop b s xs).1 ys).2) := by
  induction xs generalizing s with
  | nil => simp [runLoop]
  | cons o os ih =>
    by_cases hl : s.isListening
    · simp [runLoop, hl, ih]
    · have h := runLoop_not_listening b s ys (by simpa using hl)
      simp [runLoop, hl, h]

theorem countDetect_append (e1 e2 : List Event) :
    countDetect (e1 ++ e2) = countDetect e1 + countDetect e2 := by
  induction e1 with
  | nil => simp [countDetect]
  | cons e r ih => cases e <;> simp [countDetect, ih] <;> try omega

theorem countDetect_runIteration (b : List Message → String) (s : WorkerState)
    (o : RecognitionResult) : countDetect (runIteration b s o).2 = 1 := by
  cases o <;> rfl

theorem countDetect_runLoop (b : List Message → String) (s : WorkerState)
    (script : List RecognitionResult) (h : s.isListening = true) :
    countDetect (runLoop b s script).2 = script.length := by
  induction script generalizing s with
  | nil => rfl
  | cons o os ih =>
    have hl : (runIteration b s o).1.isListening = true := by
      rw [runIteration_isListening]; exact h
    simp [runLoop, h, countDetect_append, countDetect_runIteration, ih _ hl]
    omega

theorem successTurns_length (b : List Message → String) (h : List Message)
    (ts : List String) : (successTurns b h ts).length = 2 * ts.length := by
  induction ts generalizing h with
  | nil => rfl
  | cons t ts ih => simp [successTurns, ih]; omega

theorem successTurns_roles (b : List Message → String) (h : List Message)
    (ts : List String) :
    (successTurns b h ts).map Message.role =
      List.flatten (List.replicate ts.length [Role.user, Role.assistant]) := by
  induction ts generalizing h with
  | nil => rfl
  | cons t ts ih => simp [successTurns, List.replicate_succ, ih]

theorem runLoop_success_history (b : List Message → String) (s : WorkerState)
    (ts : List String) (h : s.isListening = true) :
    (runLoop b s (ts.map RecognitionResult.success)).1.history =
      s.history ++ successTurns b s.history ts := by
  induction ts generalizing s with
  | nil => simp [runLoop, successTurns]
  | cons t ts ih =>
    have hstep : (runIteration b s (.success t)).1.history =
        s.history ++ [⟨Role.user, t⟩,
          ⟨Role.assistant, personaWords ++ b (s.history ++ [⟨Role.user, t⟩])⟩] := by
      simp [runIteration, send_to_chatglm]
    have hl : (runIteration b s (.success t)).1.isListening = true := by
      rw [runIteration_isListening]; exact h
    simp only [List.map_cons, runLoop, h, if_true]
    rw [ih _ hl, hstep]
    simp [successTurns]

theorem chatCallsConsistent_append (h : List Message) (e1 e2 : List Event) :
    chatCallsConsistent h (e1 ++ e2) ↔
      chatCallsConsistent h e1 ∧ chatCallsConsistent (h ++ appendsIn e1) e2 := by
  induction e1 generalizing h with
  | nil => simp [chatCallsConsistent, appendsIn]
  | cons e r ih =>
    cases e <;>
      simp [chatCallsConsistent, appendsIn, ih, List.append_assoc, and_assoc]

theorem chatCallsConsistent_runIteration (b : List Message → String)
    (s : WorkerState) (o : RecognitionResult) :
    chatCallsConsistent s.history (runIteration b s o).2 := by
  cases o <;> simp [runIteration, send_to_chatglm, chatCallsConsistent]

theorem runIteration_history_appendsIn (b : List Message → String)
    (s : WorkerState) (o : RecognitionResult) :
    (runIteration b s o).1.history = s.history ++ appendsIn (runIteration b s o).2 := by
  cases o <;> simp [runIteration, send_to_chatglm, appendsIn]

theorem chatCallsConsistent_runLoop (b : List Message → String)
    (s : WorkerState) (script : List RecognitionResult) :
    chatCallsConsistent s.history (runLoop b s script).2 := by
  induction script generalizing s with
  | nil => simp [runLoop, chatCallsConsistent]
  | cons o os ih =>
    by_cases hl : s.isListening
    · simp only [runLoop, hl, if_true]
      rw [chatCallsConsistent_append]
      refine ⟨chatCallsConsistent_runIteration b s o, ?_⟩
      rw [← runIteration_history_appendsIn]
      exact ih _
    · simp [runLoop_not_listening b s _ (by simpa using hl), chatCallsConsistent]

theorem detectWhilePending_runIteration (b : List Message → String)
    (s : WorkerState) (o : RecognitionResult) (rest : List Event) :
    detectWhilePending ((runIteration b s o).2 ++ rest) 0 =
      detectWhilePending rest 0 := by
  cases o <;> simp [runIteration, send_to_chatglm, detectWhilePending]

theorem detectWhilePending_runLoop (b : List Message → String)
    (s : WorkerState) (script : List RecognitionResult) :
    detectWhilePending (runLoop b s script).2 0 = false := by
  induction script generalizing s with
  | nil => rfl
  | cons o os ih =>
    by_cases hl : s.isListening
    · simp [runLoop, hl, detectWhilePending_runIteration, ih]
    · simp [runLoop_not_listening b s _ (by simpa using hl), detectWhilePending]

/-- Claim C1: ConversationHistory is append-only and order-preserving.  For a
script of N recognitions that each complete successfully, starting from the
freshly started session (empty history, listening), the final history has
length 2N, its roles are N repetitions of user-then-assistant (strict
alternation starting with user), and after any script prefix the history so
far is only ever extended, never mutated or removed. -/
theorem conversation_history_append_only_ordered (b : List Message → String)
    (ts : List String) (pre post : List RecognitionResult) :
    (runLoop b initWorker (ts.map RecognitionResult.success)).1.history.length
        = 2 * ts.length ∧
    (runLoop b initWorker (ts.map RecognitionResult.success)).1.history.map Message.role
        = List.flatten (List.replicate ts.length [Role.user, Role.assistant]) ∧
    ∃ ext, (runLoop b initWorker (pre ++ post)).1.history
        = (runLoop b initWorker pre).1.history ++ ext := by
  have hh := runLoop_success_history b initWorker ts rfl
  refine ⟨?_, ?_, ?_⟩
  · rw [hh]; simp [initWorker, successTurns_length]
  · rw [hh]; simp [initWorker, successTurns_roles]
  · rw [runLoop_append]
    exact runLoop_history_extends b _ post

/-- Claim C2: a recognition timeout, an unintelligible result or a
recognition request error never terminates the session while it is listening:
the listening flag is untouched, every remaining scripted detector iteration
is still attempted (one `detectStart` per script entry), and in the timeout
case the history is unchanged (no message appended). -/
theorem recognition_failures_nonfatal (b : List Message → String)
    (s : WorkerState) (d : String) (rest : List RecognitionResult) :
    (runIteration b { s with isListening := true }
        RecognitionResult.timeout).1.isListening = true ∧
    (runIteration b { s with isListening := true }
        RecognitionResult.unintelligible).1.isListening = true ∧
    (runIteration b { s with isListening := true }
        (RecognitionResult.requestError d)).1.isListening = true ∧
    (runIteration b { s with isListening := true }
        RecognitionResult.timeout).1.history = s.history ∧
    countDetect (runLoop b { s with isListening := true }
        (RecognitionResult.timeout :: rest)).2 = rest.length + 1 ∧
    countDetect (runLoop b { s with isListening := true }
        (RecognitionResult.unintelligible :: rest)).2 = rest.length + 1 ∧
    countDetect (runLoop b { s with isListening := true }
        (RecognitionResult.requestError d :: rest)).2 = rest.length + 1 := by
  refine ⟨rfl, rfl, rfl, rfl, ?_, ?_, ?_⟩ <;>
    · rw [countDetect_runLoop b _ _ rfl]; simp

/-- Claim C3, amended: the chat dispatch is synchronous with the listen loop.
`asyncio.run` runs `send_to_chatglm` to completion on the listen-loop thread,
so no detection cycle ever starts while a backend call is in flight
(`detectWhilePending` never fires), and the events of a successful iteration
— including the backend completion, the assistant-message append and the UI
response update — all precede every event of the following iterations. -/
theorem dispatch_completes_before_next_detect (b : List Message → String)
    (s : WorkerState) (script : List RecognitionResult) (t : String)
    (os : List RecognitionResult) :
    detectWhilePending (runLoop b s script).2 0 = false ∧
    (runLoop b { s with isListening := true }
        (RecognitionResult.success t :: os)).2
      = (runIteration b { s with isListening := true }
          (RecognitionResult.success t)).2 ++
        (runLoop b (runIteration b { s with isListening := true }
          (RecognitionResult.success t)).1 os).2 := by
  refine ⟨detectWhilePending_runLoop b s script, ?_⟩
  simp [runLoop]

/-- Claim C3, counterexample to the claim as stated: in the run that
recognizes "a" and then "b", no detection cycle starts while a chat call is
pending — the trace instead interleaves nothing: the first nine events show
the backend completion (`chatDone`), the assistant-message append and the UI
response update all happening before the second `detectStart`.  The listen
loop therefore does block waiting for the backend reply, contradicting the
claimed fire-and-forget dispatch. -/
theorem dispatch_blocking_counterexample :
    detectWhilePending (runLoop (fun _ => "ok") initWorker
        [RecognitionResult.success "a", RecognitionResult.success "b"]).2 0 = false ∧
    countDetect (runLoop (fun _ => "ok") initWorker
        [RecognitionResult.success "a", RecognitionResult.success "b"]).2 = 2 ∧
    (runLoop (fun _ => "ok") initWorker
        [RecognitionResult.success "a", RecognitionResult.success "b"]).2.take 9 =
      [Event.detectStart, Event.transcriptAppend "Recognized: a",
       Event.statusSet "Recognized.", Event.historyAppend ⟨Role.user, "a"⟩,
       Event.chatCall [⟨Role.user, "a"⟩], Event.chatDone "ok",
       Event.historyAppend ⟨Role.assistant, personaWords ++ "ok"⟩,
       Event.responseAppend "ok", Event.detectStart] := by
  decide

/-- Claim C6: for every completed chat dispatch, the assistant message stored
in the history is the fixed persona instruction concatenated with the backend
reply, while the UI response area receives the raw reply text. -/
theorem assistant_message_persona_prefixed (b : List Message → String)
    (s : WorkerState) (user_input : String) :
    (send_to_chatglm b s user_input).1.history
        = s.history ++ [⟨Role.assistant, personaWords ++ b s.history⟩] ∧
    (send_to_chatglm b s user_input).1.responses = s.responses ++ [b s.history] ∧
    (send_to_chatglm b s user_input).2
        = [Event.chatCall s.history, Event.chatDone (b s.history),
           Event.historyAppend ⟨Role.assistant, personaWords ++ b s.history⟩,
           Event.responseAppend (b s.history)] :=
  ⟨rfl, rfl, rfl⟩

/-- Claim C7: on a successful recognition the user message is appended to the
history before the chat backend is invoked, and the invocation is passed the
entire ordered history — the prior history plus the just-appended user
message; moreover in every run every chat call is passed exactly the full
history accumulated at that point. -/
theorem user_appended_then_full_history_passed (b : List Message → String)
    (s : WorkerState) (t : String) (script : List RecognitionResult) :
    (runIteration b s (RecognitionResult.success t)).2
        = [Event.detectStart, Event.transcriptAppend ("Recognized: " ++ t),
           Event.statusSet "Recognized.",
           Event.historyAppend ⟨Role.user, t⟩,
           Event.chatCall (s.history ++ [⟨Role.user, t⟩]),
           Event.chatDone (b (s.history ++ [⟨Role.user, t⟩])),
           Event.historyAppend ⟨Role.assistant,
             personaWords ++ b (s.history ++ [⟨Role.user, t⟩])⟩,
           Event.responseAppend (b (s.history ++ [⟨Role.user, t⟩]))] ∧
    chatCallsConsistent s.history (runLoop b s script).2 :=
  ⟨rfl, chatCallsConsistent_runLoop b s script⟩

/-- Claim C9, amended: an unintelligible recognition result is only logged as
a warning — the worker state (status label included) is completely unchanged
and the loop goes on to the next iteration. -/
theorem unintelligible_only_logged (b : List Message → String)
    (s : WorkerState) :
    runIteration b s RecognitionResult.unintelligible
      = (s, [Event.detectStart, Event.logWarning "Speech not understood."]) :=
  rfl

/-- Claim C9, counterexample to the claim as stated: an unintelligible result
produces no `status_label.setText` call at all (while a timeout does), so the
outcome is merely logged, not reported to the user-facing status surface. -/
theorem unintelligible_not_reported_counterexample :
    reportedToStatusSurface (runIteration (fun _ => "ok") initWorker
        RecognitionResult.unintelligible).2 = false ∧
    (runIteration (fun _ => "ok") initWorker
        RecognitionResult.unintelligible).1.status = initWorker.status ∧
    reportedToStatusSurface (runIteration (fun _ => "ok") initWorker
        RecognitionResult.timeout).2 = true := by
  decide

/-- Observable state of `AudioRecorder` (lines 48-106): the `is_recording`
flag, whether the Qt `timer` is running, whether an open input stream is
held, and whether the shared `pyaudio_instance` has been terminated. -/
structure RecorderState where
  isRecording : Bool
  timerActive : Bool
  streamOpen : Bool
  pyTerminated : Bool
  deriving Repr, DecidableEq

/-- The one error the model distinguishes: `pyaudio.PyAudio.open` raising,
which the spec calls `DeviceUnavailable`. -/
inductive AudioError where
  | deviceUnavailable
  deriving Repr, DecidableEq

/-- `pyaudio_instance.open(...)` (line 66): fails when the host has no usable
input device (`deviceOk = false`) or — PyAudio semantics — when `terminate()`
has already been called on this `PyAudio` instance. -/
def openStream (deviceOk : Bool) (s : RecorderState) : Option Unit :=
  if s.pyTerminated || !deviceOk then none else some ()

/-- `AudioRecorder.start_recording` (lines 60-76).  Returns the state after
the call together with the exception that propagated, if any: an early
logged return when already recording; otherwise `open` is attempted and, on
success, `is_recording` is set and the 50 ms plot timer is started.  When
`open` raises, no field has been assigned yet, so the state is unchanged. -/
def start_recording (deviceOk : Bool) (s : RecorderState) :
    RecorderState × Option AudioError :=
  if s.isRecording then (s, none)
  else
    match openStream deviceOk s with
    | none => (s, some AudioError.deviceUnavailable)
    | some _ =>
      ({ s with streamOpen := true, isRecording := true, timerActive := true },
       none)

/-- `AudioRecorder.stop_recording` (lines 78-90): an early logged return when
not recording; otherwise the flag is cleared, the timer stopped, the stream
stopped and closed, and the whole `pyaudio_instance` is terminated. -/
def stop_recording (s : RecorderState) : RecorderState :=
  if !s.isRecording then s
  else
    { s with
        isRecording := false, timerActive := false, streamOpen := false,
        pyTerminated := true }

/-- State touched by `SpeechRecognitionApp.toggle_listening` (lines 382-404):
the `is_listening` flag, the recorder, how many `ListenWorker` threads have
been started, the progress-bar value and the progress-bar timer. -/
structure AppState where
  is_listening : Bool
  recorder : RecorderState
  listenThreads : Nat
  progress : Nat
  uiTimerActive : Bool
  deriving Repr, DecidableEq

/-- `SpeechRecognitionApp.toggle_listening` (lines 382-404), with the source's
statement order: on the start branch `is_listening` is set, the listen worker
thread is started and the progress timer begun *before*
`audio_recorder.start_recording()` is called, and an exception from the
latter propagates without rolling any of that back. -/
def toggle_listening (deviceOk : Bool) (a : AppState) :
    AppState × Option AudioError :=
  if !a.is_listening then
    let a1 : AppState :=
      { a with
          is_listening := true, listenThreads := a.listenThreads + 1,
          progress := 50, uiTimerActive := true }
    let r := start_recording deviceOk a1.recorder
    ({ a1 with recorder := r.1 }, r.2)
  else
    let a1 : AppState :=
      { a with is_listening := false, progress := 0, uiTimerActive := false }
    ({ a1 with recorder := stop_recording a1.recorder }, none)

/-- The application state at startup: not listening, fresh recorder. -/
def initApp : AppState := ⟨false, ⟨false, false, false, false⟩, 0, 0, false⟩

/-- Claim C4, amended: when opening the audio input channel fails, the
exception propagates out of `start_recording` and `toggle_listening`, the
recorder is left exactly as it was — in particular its capture timer never
starts ticking — but `toggle_listening` has already set `is_listening` and
started a listen worker thread, and the failure does not roll these back:
the listening state does not remain Idle. -/
theorem device_failure_leaves_listening_set (a : AppState) :
    (toggle_listening false
        { a with is_listening := false,
                 recorder := { a.recorder with isRecording := false } }).2
      = some AudioError.deviceUnavailable ∧
    (toggle_listening false
        { a with is_listening := false,
                 recorder := { a.recorder with isRecording := false } }).1.recorder
      = { a.recorder with isRecording := false } ∧
    (toggle_listening false
        { a with is_listening := false,
                 recorder := { a.recorder with isRecording := false } }).1.recorder.timerActive
      = a.recorder.timerActive ∧
    (toggle_listening false
        { a with is_listening := false,
                 recorder := { a.recorder with isRecording := false } }).1.is_listening
      = true ∧
    (toggle_listening false
        { a with is_listening := false,
                 recorder := { a.recorder with isRecording := false } }).1.listenThreads
      = a.listenThreads + 1 := by
  simp [toggle_listening, start_recording, openStream]

/-- Claim C4, counterexample to the claim as stated: from the startup state,
a toggle whose device open fails raises `DeviceUnavailable`, yet the
listening flag is `true` afterwards — the listening state did not remain
Idle, and the failed start did not leave the state as it was. -/
theorem device_failure_counterexample :
    (toggle_listening false initApp).2 = some AudioError.deviceUnavailable ∧
    (toggle_listening false initApp).1.is_listening = true ∧
    (toggle_listening false initApp).1.recorder.timerActive = false := by
  decide

/-- Claim C8: start and stop of the capture loop are idempotent —
`start_recording` on a recorder already recording and `stop_recording` on a
recorder not recording are logged no-ops that leave the recorder (stream,
timer, instance and flag) unchanged and raise nothing. -/
theorem start_stop_idempotent (deviceOk : Bool) (s : RecorderState) :
    start_recording deviceOk { s with isRecording := true }
        = ({ s with isRecording := true }, none) ∧
    stop_recording { s with isRecording := false }
        = { s with isRecording := false } :=
  ⟨rfl, rfl⟩

/-- Claim C10: stopping a recorder that was recording terminates the whole
PyAudio instance, not just the stream; a later `start_recording` on the same
`AudioRecorder` therefore cannot open a new input channel for any device
state — it raises and changes nothing, so the capture lifecycle is one-shot
per recorder object.  Concretely, a third toggle (start, stop, start again)
fails with `DeviceUnavailable` and leaves the recorder dead. -/
theorem stop_terminates_instance_one_shot (deviceOk : Bool) (s : RecorderState) :
    (stop_recording { s with isRecording := true }).pyTerminated = true ∧
    (stop_recording { s with isRecording := true }).isRecording = false ∧
    start_recording deviceOk (stop_recording { s with isRecording := true })
      = (stop_recording { s with isRecording := true },
         some AudioError.deviceUnavailable) ∧
    (toggle_listening true (toggle_listening true
        (toggle_listening true initApp).1).1).2
      = some AudioError.deviceUnavailable ∧
    (toggle_listening true (toggle_listening true
        (toggle_listening true initApp).1).1).1.recorder.isRecording = false := by
  refine ⟨rfl, rfl, ?_, by decide, by decide⟩
  simp [start_recording, stop_recording, openStream]

/-- Frame size of one audio read (`CHUNK`, line 42). -/
def CHUNK : Nat := 1024

/-- One coefficient of the discrete Fourier transform that `np.fft.fft`
computes over the 1024 signed 16-bit samples of one frame (line 103),
modelled exactly over ℂ. -/
noncomputable def dftCoeff (x : Fin CHUNK → ℤ) (k : Nat) : ℂ :=
  ∑ n : Fin CHUNK,
    (x n : ℂ) *
      Complex.exp (-2 * Real.pi * Complex.I * (k : ℂ) * ((n : ℕ) : ℂ) / (CHUNK : ℂ))

/-- The spectral stage of `AudioRecorder.update_plots` (line 103):
`np.abs(np.fft.fft(audio_data))[: CHUNK // 2]`, the magnitudes of the first
`CHUNK / 2` DFT coefficients. -/
noncomputable def fft_data (x : Fin CHUNK → ℤ) : List ℝ :=
  (List.range (CHUNK / 2)).map fun k => Complex.abs (dftCoeff x k)

/-- Claim C5: for every 1024-sample frame the spectral stage produces exactly
512 magnitudes, every one of them non-negative (stated via `getD`, which also
returns a non-negative default out of range), and the all-zero silent frame
yields the all-zero spectrum of length 512. -/
theorem fft_length_nonneg_zero_frame (x : Fin CHUNK → ℤ) (k : Nat) :
    (fft_data x).length = 512 ∧
    0 ≤ (fft_data x).getD k 0 ∧
    fft_data (fun _ => 0) = List.replicate 512 0 := by
  have hzero : ∀ j, dftCoeff (fun _ => 0) j = 0 := by intro j; simp [dftCoeff]
  refine ⟨by simp [fft_data, CHUNK], ?_, ?_⟩
  · rcases Nat.lt_or_ge k (fft_data x).length with hk | hk
    · rw [List.getD_eq_getElem _ _ hk]
      simp only [fft_data, List.getElem_map]
      exact Complex.abs.nonneg _
    · rw [List.getD_eq_default _ _ hk]
  · refine List.eq_replicate_iff.mpr ⟨by simp [fft_data, CHUNK], ?_⟩
    intro r hr
    simp only [fft_data] at hr
    obtain ⟨j, hj, rfl⟩ := List.mem_map.mp hr
    simp [hzero]
